import Mathlib

/-!
Verification of the real-time audio session core of the `fatma` voice-assistant
front-end, shallowly embedded from `src/App.tsx` and `src/utils/gmail-service.ts`.

Device-clock times and buffer durations (JS `number` seconds) are modelled as
rationals; storage, the transport session, the microphone stream and the Gmail
HTTP endpoints are modelled as explicit state and oracles supplied to each
operation.
-/

namespace Aura

/-! ## Output Timeline Scheduler (`App.tsx` 109-110, 190-196, 218-239) -/

/-- One scheduled chunk of decoded response audio: an `AudioBufferSourceNode`
registered in `sourcesRef.current`.  `stopThrows` models whether the underlying
engine call `source.stop()` would throw for this handle (e.g. an
`InvalidStateError`); the code never inspects it, it only wraps the call. -/
structure PlaybackHandle where
  startTime : ℚ
  duration : ℚ
  stopThrows : Bool
deriving DecidableEq, Repr

/-- Scheduler state: `nextStartTimeRef.current` (the cursor) and
`sourcesRef.current` (the active set, modelled as a list). -/
structure SchedulerState where
  cursor : ℚ
  active : List PlaybackHandle
deriving DecidableEq, Repr

/-- The audio branch of `handleSessionMessage` (`App.tsx` 218-239):
`nextStartTime = max(nextStartTime, ctx.currentTime)`, start the source at the
cursor, advance the cursor by the buffer duration, add the source to the active
set.  Returns the new state and the start time passed to `source.start`. -/
def schedulePlayback (s : SchedulerState) (duration deviceNow : ℚ) :
    SchedulerState × ℚ :=
  let start := max s.cursor deviceNow
  ({ cursor := start + duration,
     active := s.active ++ [{ startTime := start, duration := duration, stopThrows := false }] },
   start)

/-- Start times produced by scheduling a sequence of chunks; each list entry is
`(duration, deviceNow at arrival)`. -/
def scheduleTrace : SchedulerState → List (ℚ × ℚ) → List ℚ
  | _, [] => []
  | s, c :: rest =>
      let p := schedulePlayback s c.1 c.2
      p.2 :: scheduleTrace p.1 rest

/-- Cumulative start times from a base offset: `[b, b+d1, b+d1+d2, ...]`. -/
def cumStarts : ℚ → List ℚ → List ℚ
  | _, [] => []
  | base, d :: rest => base :: cumStarts (base + d) rest

/-- The start times the specification predicts: the first chunk starts at
`max(cursor, deviceNow of the first chunk)` and each later chunk at that base
plus the sum of the prior durations. -/
def predictedStarts (s : SchedulerState) : List (ℚ × ℚ) → List ℚ
  | [] => []
  | c :: rest => cumStarts (max s.cursor c.2) (c.1 :: rest.map Prod.fst)

/-- `onTime c chunks` holds when every chunk in `chunks` arrives while the
timeline cursor (running value `c`) is still at or ahead of the device clock. -/
def onTime : ℚ → List (ℚ × ℚ) → Bool
  | _, [] => true
  | c, x :: rest => decide (x.2 ≤ c) && onTime (c + x.1) rest

/-- `source.stop()` for one handle, as seen by the wrapping code. -/
def sourceStop (h : PlaybackHandle) : Except String Unit :=
  if h.stopThrows then Except.error "InvalidStateError" else Except.ok ()

/-- `try { source.stop(); } catch (e) { }` (`App.tsx` 192). -/
def stopOne (h : PlaybackHandle) : Except String Unit :=
  match sourceStop h with
  | Except.ok _ => Except.ok ()
  | Except.error _ => Except.ok ()

/-- `sourcesRef.current.forEach(...)` over the guarded stop; a thrown exception
would propagate out of `forEach`, but `stopOne` never throws. -/
def stopAll : List PlaybackHandle → Except String Unit
  | [] => Except.ok ()
  | h :: rest =>
      match stopOne h with
      | Except.ok _ => stopAll rest
      | Except.error e => Except.error e

/-- `stopAllAudio` (`App.tsx` 190-196): stop every source (each stop guarded),
clear the set, reset the cursor to 0. -/
def stopAllAudio (s : SchedulerState) : Except String SchedulerState :=
  match stopAll s.active with
  | Except.ok _ => Except.ok { cursor := 0, active := [] }
  | Except.error e => Except.error e

/-- `source.onended` (`App.tsx` 229-232): remove the handle from the active set;
the cursor is untouched. -/
def handleEnded (s : SchedulerState) (h : PlaybackHandle) : SchedulerState :=
  { s with active := s.active.erase h }

lemma stopOne_ok (h : PlaybackHandle) : stopOne h = Except.ok () := by
  cases hb : h.stopThrows <;> simp [stopOne, sourceStop, hb]

lemma stopAll_ok (l : List PlaybackHandle) : stopAll l = Except.ok () := by
  induction l with
  | nil => rfl
  | cons h rest ih => simp [stopAll, stopOne_ok, ih]

lemma stopAllAudio_ok (s : SchedulerState) :
    stopAllAudio s = Except.ok { cursor := 0, active := [] } := by
  simp [stopAllAudio, stopAll_ok]

lemma scheduleTrace_onTime (chunks : List (ℚ × ℚ)) :
    ∀ (c : ℚ) (A : List PlaybackHandle), onTime c chunks = true →
      scheduleTrace ⟨c, A⟩ chunks = cumStarts c (chunks.map Prod.fst) := by
  induction chunks with
  | nil => intro c A _; rfl
  | cons x rest ih =>
      intro c A h
      simp only [onTime, Bool.and_eq_true, decide_eq_true_eq] at h
      obtain ⟨h1, h2⟩ := h
      simp only [scheduleTrace, schedulePlayback, List.map_cons, cumStarts,
        max_eq_left h1]
      exact congrArg (c :: ·) (ih _ _ h2)

/-! ## Data model for tool dispatch (`src/types.ts`, `App.tsx` 242-314) -/

/-- `SessionStatus` from `src/types.ts`. -/
inductive SessionStatus
  | IDLE | CONNECTING | CONNECTED | ERROR
deriving DecidableEq, Repr

/-- `Memory` from `src/types.ts`. -/
structure Memory where
  id : String
  content : String
  timestamp : Nat
deriving DecidableEq, Repr

/-- `Email` from `src/utils/gmail-service.ts`. -/
structure Email where
  «from» : String
  id : String
  subject : String
  snippet : String
  body : String
  date : String
  isUnread : Bool
deriving DecidableEq, Repr

/-- Arguments of one tool call; every field the dispatcher reads is optional
because the wire format does not enforce the declared `required` lists. -/
structure ToolArgs where
  content : Option String := none
  subject : Option String := none
  emailBody : Option String := none
  title : Option String := none
  maxResults : Option Nat := none
  query : Option String := none
deriving DecidableEq, Repr

/-- A `ToolCall` from a `message.toolCall.functionCalls` batch. -/
structure ToolCall where
  id : String
  name : String
  args : ToolArgs
deriving DecidableEq, Repr

/-- The `result` value computed by the dispatcher: either a string or the
JSON-parsed memory list returned by `get_memories`. -/
inductive ToolResult
  | str (s : String)
  | jsonMemories (ms : List Memory)
deriving DecidableEq, Repr

/-- One `sendToolResponse` payload (`App.tsx` 304-312). -/
structure ToolResponse where
  id : String
  name : String
  result : ToolResult
deriving DecidableEq, Repr

/-- JS template interpolation of a possibly-missing argument: an absent value
renders as the text `undefined`. -/
def jsStr (o : Option String) : String := o.getD "undefined"

/-- `(fc.args.maxResults as number) || 10` — JS `||` falls back on `0` too. -/
def jsOr10 : Option Nat → Nat
  | none => 10
  | some 0 => 10
  | some n => n

/-- End index (within the line) of the first regex match of `<.*>` starting at
the head of `cs`: the greedy `.*` runs to the last `>` before a newline. -/
def angleEnd (cs : List Char) : Option Nat :=
  let line := cs.takeWhile (fun c => c ≠ '\n')
  ((List.range line.length).filter (fun j => line.get? j = some '>')).getLast?

/-- `from.replace(/<.*>/, '')` (`gmail-service.ts` 143): delete the leftmost,
longest single-line `<...>` segment. -/
def replaceAngle : List Char → List Char
  | [] => []
  | c :: rest =>
      if c = '<' then
        match angleEnd rest with
        | some j => rest.drop (j + 1)
        | none => c :: replaceAngle rest
      else c :: replaceAngle rest

def jsReplaceAngleOnce (s : String) : String := String.mk (replaceAngle s.data)

/-- `GmailService.summarizeEmails` (`gmail-service.ts` 137-148). -/
def summarizeEmails (emails : List Email) : String :=
  if emails.length = 0 then "You have no unread emails."
  else
    let lines := emails.enum.map (fun p =>
      let sender := (jsReplaceAngleOnce p.2.«from»).trim
      toString (p.1 + 1) ++ ". From " ++ sender ++ ": " ++ p.2.subject)
    let plural := if emails.length > 1 then "s" else ""
    "You have " ++ toString emails.length ++ " unread email" ++ plural ++ ":\n" ++
      String.intercalate "\n" lines

/-- The apostrophe character, used in two advisory strings of the dispatcher. -/
def apos : String := Char.toString (Char.ofNat 39)

/-- Result string of the `catch` branch of `read_emails` (`App.tsx` 285). -/
def readFailMsg : String :=
  "Sorry, I couldn" ++ apos ++ "t read your emails. Please try signing in again."

/-- Result string of the `catch` branch of `search_emails` (`App.tsx` 299). -/
def searchFailMsg : String :=
  "Sorry, I couldn" ++ apos ++ "t search your emails. Please try again."

/-- The mail collaborator as seen by the dispatcher: `gmailService.getUnreadEmails`
and `gmailService.searchEmails`, which either return a list of emails or throw. -/
structure GmailOracle where
  getUnread : Nat → Except String (List Email)
  search : String → Nat → Except String (List Email)

/-- Instrumentation record of one collaborator invocation. -/
inductive MailCall
  | unread (n : Nat)
  | search (q : String) (n : Nat)
deriving DecidableEq, Repr

/-- A stored task (`App.tsx` 263-268): `{ id, ...fc.args, completed, timestamp }`. -/
structure TaskRec where
  id : String
  args : ToolArgs
  completed : Bool
  timestamp : Nat
deriving DecidableEq, Repr

/-- A stored draft (`App.tsx` 251-255): `{ id, ...fc.args, timestamp }`. -/
structure DraftRec where
  id : String
  args : ToolArgs
  timestamp : Nat
deriving DecidableEq, Repr

/-- The state and external collaborators the tool dispatcher touches.
`sessionPresent` is whether `sessionRef.current` is non-null; `uuid` and `now`
model `crypto.randomUUID()` and `Date.now()`; `mailLog` instruments collaborator
invocations (it has no counterpart in the code). -/
structure AssistantEnv where
  sessionPresent : Bool
  status : SessionStatus
  gmailAuthenticated : Bool
  memories : List Memory
  tasks : List TaskRec
  drafts : List DraftRec
  emails : List Email
  mailLog : List MailCall
  gmail : GmailOracle
  uuid : String
  now : Nat

/-- The body of the `for (const fc of message.toolCall.functionCalls)` loop up to
the response send (`App.tsx` 244-302): computes `result` and the state updates
for one call.  Unmatched names keep the initial `result = "ok"`. -/
def runToolCall (env : AssistantEnv) (fc : ToolCall) : AssistantEnv × ToolResult :=
  if fc.name = "save_memory" then
    let m : Memory := { id := env.uuid, content := jsStr fc.args.content, timestamp := env.now }
    ({ env with memories := env.memories ++ [m] }, ToolResult.str "Memory saved successfully.")
  else if fc.name = "get_memories" then
    (env, ToolResult.jsonMemories env.memories)
  else if fc.name = "write_email" then
    let draft : DraftRec := { id := env.uuid, args := fc.args, timestamp := env.now }
    ({ env with drafts := env.drafts ++ [draft] },
     ToolResult.str ("Email draft created! Subject: \"" ++ jsStr fc.args.subject ++
       "\". You can copy it from the drafts section."))
  else if fc.name = "create_task" then
    let task : TaskRec := { id := env.uuid, args := fc.args, completed := false, timestamp := env.now }
    ({ env with tasks := env.tasks ++ [task] },
     ToolResult.str ("Task created: \"" ++ jsStr fc.args.title ++ "\""))
  else if fc.name = "read_emails" then
    if env.gmailAuthenticated = false then
      (env, ToolResult.str "Please sign in to Gmail first to read your emails.")
    else
      let maxResults := jsOr10 fc.args.maxResults
      let env2 := { env with mailLog := env.mailLog ++ [MailCall.unread maxResults] }
      match env.gmail.getUnread maxResults with
      | Except.ok fetched =>
          ({ env2 with emails := fetched }, ToolResult.str (summarizeEmails fetched))
      | Except.error _ => (env2, ToolResult.str readFailMsg)
  else if fc.name = "search_emails" then
    if env.gmailAuthenticated = false then
      (env, ToolResult.str "Please sign in to Gmail first to search your emails.")
    else
      let maxResults := jsOr10 fc.args.maxResults
      let q := jsStr fc.args.query
      let env2 := { env with mailLog := env.mailLog ++ [MailCall.search q maxResults] }
      match env.gmail.search q maxResults with
      | Except.ok found =>
          ({ env2 with emails := found }, ToolResult.str (summarizeEmails found))
      | Except.error _ => (env2, ToolResult.str searchFailMsg)
  else
    (env, ToolResult.str "ok")

/-- One loop iteration including the guarded send (`App.tsx` 304-312): the
response is sent only when `sessionRef.current` is non-null. -/
def handleOneCall (env : AssistantEnv) (fc : ToolCall) : AssistantEnv × List ToolResponse :=
  let r := runToolCall env fc
  (r.1, if r.1.sessionPresent then [{ id := fc.id, name := fc.name, result := r.2 }] else [])

/-- The whole `for`-loop over a batch, collecting the responses sent. -/
def handleToolCalls : AssistantEnv → List ToolCall → AssistantEnv × List ToolResponse
  | env, [] => (env, [])
  | env, fc :: rest =>
      let p := handleOneCall env fc
      let q := handleToolCalls p.1 rest
      (q.1, p.2 ++ q.2)

/-- The names the dispatcher matches explicitly (`App.tsx` 245-288). -/
def recognizedToolNames : List String :=
  ["save_memory", "get_memories", "write_email", "create_task", "read_emails", "search_emails"]

lemma runToolCall_preserves (env : AssistantEnv) (fc : ToolCall) :
    (runToolCall env fc).1.sessionPresent = env.sessionPresent ∧
    (runToolCall env fc).1.status = env.status := by
  unfold runToolCall
  repeat' split
  all_goals try dsimp only
  repeat' split
  all_goals exact ⟨rfl, rfl⟩

lemma runToolCall_unknown (env : AssistantEnv) (fc : ToolCall)
    (h : fc.name ∉ recognizedToolNames) :
    (runToolCall env fc).2 = ToolResult.str "ok" := by
  simp only [recognizedToolNames, List.mem_cons, List.not_mem_nil, or_false,
    not_or] at h
  obtain ⟨h1, h2, h3, h4, h5, h6⟩ := h
  simp [runToolCall, h1, h2, h3, h4, h5, h6]

lemma dispatch_forall2 (calls : List ToolCall) :
    ∀ env : AssistantEnv, env.sessionPresent = true →
      List.Forall₂ (fun (fc : ToolCall) (r : ToolResponse) =>
          r.id = fc.id ∧ r.name = fc.name ∧
          (fc.name ∉ recognizedToolNames → r.result = ToolResult.str "ok"))
        calls (handleToolCalls env calls).2 := by
  induction calls with
  | nil => intro env _; exact List.Forall₂.nil
  | cons fc rest ih =>
      intro env h
      have hpres := (runToolCall_preserves env fc).1
      have hsend : (runToolCall env fc).1.sessionPresent = true := hpres.trans h
      simp only [handleToolCalls, handleOneCall, hsend, if_true]
      exact List.Forall₂.cons ⟨rfl, rfl, fun hu => runToolCall_unknown env fc hu⟩
        (ih _ (hpres.trans h))

/-! ## Session lifecycle: `endConnection` (`App.tsx` 178-188, 429-443) -/

/-- The audio nodes stored in `audioNodesRef`; `disconnectThrows` models whether
the engine `disconnect()` calls would throw. -/
structure AudioNodes where
  disconnectThrows : Bool
deriving DecidableEq, Repr

/-- The transport session handle; `closeThrows` models whether `close()` throws. -/
structure SessionHandle where
  closeThrows : Bool
deriving DecidableEq, Repr

/-- One microphone track of `streamRef.current`; `stopThrows` models whether
`track.stop()` throws. -/
structure Track where
  stopThrows : Bool
deriving DecidableEq, Repr

/-- App-level state touched by `endConnection`. -/
structure AppState where
  audioNodes : Option AudioNodes
  session : Option SessionHandle
  stream : Option (List Track)
  sched : SchedulerState
  status : SessionStatus
deriving DecidableEq, Repr

/-- One conceptual cleanup step of the end-connection path. -/
inductive CleanupStep
  | stopCapture | closeTransport | releaseMic | interruptScheduler
deriving DecidableEq, Repr

/-- `cleanupAudioNodes` (`App.tsx` 178-188): the two `disconnect()` calls sit in
a `try { } catch { }`, so a throwing disconnect is swallowed and the ref is
cleared either way. -/
def cleanupAudioNodes (st : AppState) : AppState × List CleanupStep :=
  match st.audioNodes with
  | some _ => ({ st with audioNodes := none }, [CleanupStep.stopCapture])
  | none => (st, [])

/-- `streamRef.current.getTracks().forEach(track => track.stop())`
(`App.tsx` 438): a throwing `stop()` propagates out of `forEach`. -/
def stopTracks : List Track → Except String Unit
  | [] => Except.ok ()
  | t :: rest =>
      if t.stopThrows then Except.error "track stop failed" else stopTracks rest

/-- `endConnection` (`App.tsx` 429-443): disconnect audio nodes, close the
session if present, stop the stream tracks if present, `stopAllAudio`, set the
status to IDLE.  None of the statements after `cleanupAudioNodes` is wrapped in
a `try`, so a throw propagates and the following statements do not run.
Returns the final state and the steps performed, in order. -/
def endConnection (st : AppState) : Except String (AppState × List CleanupStep) :=
  let p1 := cleanupAudioNodes st
  let closeRes : Except String (AppState × List CleanupStep) :=
    match p1.1.session with
    | some s =>
        if s.closeThrows then Except.error "session close failed"
        else Except.ok ({ p1.1 with session := none }, p1.2 ++ [CleanupStep.closeTransport])
    | none => Except.ok (p1.1, p1.2)
  match closeRes with
  | Except.error e => Except.error e
  | Except.ok p2 =>
      let micRes : Except String (AppState × List CleanupStep) :=
        match p2.1.stream with
        | some ts =>
            match stopTracks ts with
            | Except.ok _ =>
                Except.ok ({ p2.1 with stream := none }, p2.2 ++ [CleanupStep.releaseMic])
            | Except.error e => Except.error e
        | none => Except.ok (p2.1, p2.2)
      match micRes with
      | Except.error e => Except.error e
      | Except.ok p3 =>
          match stopAllAudio p3.1.sched with
          | Except.ok sched2 =>
              Except.ok ({ p3.1 with sched := sched2, status := SessionStatus.IDLE },
                p3.2 ++ [CleanupStep.interruptScheduler])
          | Except.error e => Except.error e

/-! ## Session lifecycle: `startConnection` (`App.tsx` 317-427) -/

/-- Externally visible events of the start path, in program order. -/
inductive StartEvent
  | setStatus (s : SessionStatus)
  | getUserMedia
  | connectTransport
deriving DecidableEq, Repr

/-- The credential check of `startConnection` (`App.tsx` 324):
`!apiKey || apiKey === placeholder || apiKey.trim() === ''`; `none` models an
undefined `import.meta.env.VITE_API_KEY`. -/
def apiKeyInvalid (apiKey : Option String) : Bool :=
  match apiKey with
  | none => true
  | some k => k = "" || k = "your_google_gemini_api_key_here" || k.trim = ""

/-- `startConnection` (`App.tsx` 317-427) as its ordered event trace, the async
continuation linearized: set CONNECTING, validate the credential (an invalid one
throws into the `catch`, which sets ERROR), then acquire the microphone, then
connect the transport; a failure of either lands in the same `catch`, and the
`onopen` callback sets CONNECTED.  `micOk` and `connectOk` are environment
oracles for the two awaited acquisitions. -/
def startConnection (apiKey : Option String) (micOk connectOk : Bool) : List StartEvent :=
  if apiKeyInvalid apiKey then
    [StartEvent.setStatus SessionStatus.CONNECTING, StartEvent.setStatus SessionStatus.ERROR]
  else if micOk = false then
    [StartEvent.setStatus SessionStatus.CONNECTING, StartEvent.getUserMedia,
     StartEvent.setStatus SessionStatus.ERROR]
  else if connectOk = false then
    [StartEvent.setStatus SessionStatus.CONNECTING, StartEvent.getUserMedia,
     StartEvent.connectTransport, StartEvent.setStatus SessionStatus.ERROR]
  else
    [StartEvent.setStatus SessionStatus.CONNECTING, StartEvent.getUserMedia,
     StartEvent.connectTransport, StartEvent.setStatus SessionStatus.CONNECTED]

/-! ## Capture Pipeline (`App.tsx` 393-406) -/

/-- Modelled from the spec: `createBlob` from `src/utils/audio` (imported by
`App.tsx` but the file is not present under `src/`).  Spec section 4.1: each
float sample `s` maps to `clamp(s, -1, 1) * 32767` packed as a little-endian
16-bit integer, base64-framed; the blob is modelled as the list of 16-bit
values, the base64 text framing kept abstract, and the unstated
float-to-integer rounding taken as truncation toward minus infinity. -/
def createBlob (frame : List ℚ) : List ℤ :=
  frame.map (fun s => Int.floor (max (-1 : ℚ) (min 1 s) * 32767))

/-- One invocation of `scriptProcessor.onaudioprocess`: the frame delivered,
whether `sessionRef.current` was non-null at that tick, and whether the
fire-and-forget `sendRealtimeInput` for that tick fails. -/
structure CaptureTick where
  frame : List ℚ
  sessionPresent : Bool
  sendFails : Bool
deriving DecidableEq, Repr

/-- A run of `onaudioprocess` ticks (`App.tsx` 395-402).  Per tick: if
`sessionRef.current` is non-null the frame is encoded with `createBlob` and
handed to `sendRealtimeInput`, whose promise rejection is swallowed by
`.catch(() => { })`; otherwise nothing happens (the frame is not queued).
Returns `(attempted, delivered)`: the blobs handed to the transport and the
blobs the transport accepted. -/
def runCapture : List CaptureTick → Except String (List (List ℤ) × List (List ℤ))
  | [] => Except.ok ([], [])
  | t :: rest =>
      if t.sessionPresent then
        let blob := createBlob t.frame
        let delivered : List (List ℤ) := if t.sendFails then [] else [blob]
        match runCapture rest with
        | Except.ok p => Except.ok (blob :: p.1, delivered ++ p.2)
        | Except.error e => Except.error e
      else
        runCapture rest

/-! ## Gmail service (`src/utils/gmail-service.ts`) -/

/-- JS `s.substring(0, n)`: the first `n` code units (modelled on characters). -/
def jsSubstring (s : String) (n : Nat) : String := String.mk (s.data.take n)

/-- One `{ name, value }` entry of `message.payload.headers`. -/
structure MsgHeader where
  name : String
  value : String
deriving DecidableEq, Repr

/-- A `{ data }` body object; `data` may be absent. -/
structure MsgBody where
  data : Option String
deriving DecidableEq, Repr

/-- One entry of `message.payload.parts`. -/
structure MsgPart where
  mimeType : String
  body : MsgBody
deriving DecidableEq, Repr

/-- `message.payload`. -/
structure MsgPayload where
  headers : List MsgHeader
  body : MsgBody
  parts : Option (List MsgPart)
deriving DecidableEq, Repr

/-- A full Gmail message detail object as `parseEmail` reads it. -/
structure GmailMessage where
  id : String
  snippet : String
  payload : MsgPayload
  labelIds : Option (List String)
deriving DecidableEq, Repr

/-- One `{ id }` entry of the message-list response. -/
structure MsgRef where
  id : String
deriving DecidableEq, Repr

/-- `listData` from `listResponse.json()`: the `messages` field may be absent. -/
structure ListResponse where
  messages : Option (List MsgRef)
deriving DecidableEq, Repr

/-- The base64url-to-base64 fixup of `gmail-service.ts` 118: replace every
minus with plus and every underscore with slash. -/
def b64urlToB64 (s : String) : String :=
  String.map (fun c => if c = '-' then '+' else if c = '_' then '/' else c) s

/-- The `getHeader` closure of `parseEmail` (`gmail-service.ts` 110-113). -/
def getHeader (headers : List MsgHeader) (name : String) : String :=
  match headers.find? (fun h => h.name.toLower = name.toLower) with
  | some h => h.value
  | none => ""

/-- `GmailService.parseEmail` (`gmail-service.ts` 108-135).  The browser
built-in `atob` (base64 text decoding) is an external boundary and is passed in
as an oracle. -/
def parseEmail (atob : String → String) (message : GmailMessage) : Email :=
  let headers := message.payload.headers
  let body :=
    match message.payload.body.data with
    | some d => atob (b64urlToB64 d)
    | none =>
        match message.payload.parts with
        | some parts =>
            match parts.find? (fun part => part.mimeType = "text/plain") with
            | some textPart =>
                match textPart.body.data with
                | some d => atob (b64urlToB64 d)
                | none => ""
            | none => ""
        | none => ""
  { id := message.id,
    «from» := getHeader headers "From",
    subject := getHeader headers "Subject",
    snippet := message.snippet,
    body := jsSubstring body 500,
    date := getHeader headers "Date",
    isUnread := match message.labelIds with
      | some ls => ls.contains "UNREAD"
      | none => false }

/-- The HTTP boundary of `GmailService`: the message-list endpoint for the
unread query and for a free-text query, and the per-message detail endpoint.
Each models `fetch` plus `.json()`, which either yields a parsed value or
throws. -/
structure GmailFetchEnv where
  atob : String → String
  listUnread : Nat → Except String ListResponse
  listSearch : String → Nat → Except String ListResponse
  detail : String → Except String GmailMessage

/-- `!this.accessToken` (`gmail-service.ts` 21, 66): null or empty-string
tokens are both falsy. -/
def tokenMissing : Option String → Bool
  | none => true
  | some t => t = ""

/-- The detail-fetch loop shared by both list operations
(`gmail-service.ts` 43-56, 86-99): fetch each message in order, parse it, and
stop at the first throw (the surrounding catch logs and rethrows).  Also
returns the ids whose details were fetched. -/
def fetchDetails (env : GmailFetchEnv) : List MsgRef → Except String (List Email × List String)
  | [] => Except.ok ([], [])
  | m :: rest =>
      match env.detail m.id with
      | Except.error e => Except.error e
      | Except.ok d =>
          match fetchDetails env rest with
          | Except.error e => Except.error e
          | Except.ok p => Except.ok (parseEmail env.atob d :: p.1, m.id :: p.2)

/-- `GmailService.getUnreadEmails` (`gmail-service.ts` 20-63). -/
def getUnreadEmails (env : GmailFetchEnv) (accessToken : Option String) (maxResults : Nat) :
    Except String (List Email × List String) :=
  if tokenMissing accessToken then Except.error "Not authenticated with Gmail"
  else
    match env.listUnread maxResults with
    | Except.error e => Except.error e
    | Except.ok listData =>
        match listData.messages with
        | none => Except.ok ([], [])
        | some msgs => fetchDetails env msgs

/-- `GmailService.searchEmails` (`gmail-service.ts` 65-106). -/
def searchEmails (env : GmailFetchEnv) (accessToken : Option String) (query : String)
    (maxResults : Nat) : Except String (List Email × List String) :=
  if tokenMissing accessToken then Except.error "Not authenticated with Gmail"
  else
    match env.listSearch query maxResults with
    | Except.error e => Except.error e
    | Except.ok listData =>
        match listData.messages with
        | none => Except.ok ([], [])
        | some msgs => fetchDetails env msgs

/-! ## Supporting lemmas -/

lemma stopTracks_ok (ts : List Track) (h : ∀ t ∈ ts, t.stopThrows = false) :
    stopTracks ts = Except.ok () := by
  induction ts with
  | nil => rfl
  | cons t rest ih =>
      have ht := h t (List.mem_cons_self t rest)
      simp [stopTracks, ht]
      exact ih (fun u hu => h u (List.mem_cons_of_mem t hu))

lemma jsSubstring_length_le (s : String) (n : Nat) : (jsSubstring s n).length ≤ n := by
  have h : (jsSubstring s n).length = (s.data.take n).length := rfl
  rw [h, List.length_take]
  exact min_le_left n s.data.length

lemma parseEmail_body_le (atob : String → String) (msg : GmailMessage) :
    (parseEmail atob msg).body.length ≤ 500 := by
  exact jsSubstring_length_le _ 500

lemma fetchDetails_body_le (env : GmailFetchEnv) (l : List MsgRef) :
    ∀ (es : List Email) (ids : List String) (e : Email),
      fetchDetails env l = Except.ok (es, ids) → e ∈ es → e.body.length ≤ 500 := by
  induction l with
  | nil =>
      intro es ids e h he
      simp only [fetchDetails, Except.ok.injEq, Prod.mk.injEq] at h
      rw [← h.1] at he
      cases he
  | cons m rest ih =>
      intro es ids e h he
      simp only [fetchDetails] at h
      cases hd : env.detail m.id with
      | error err => rw [hd] at h; cases h
      | ok d =>
          rw [hd] at h
          cases hr : fetchDetails env rest with
          | error err => rw [hr] at h; cases h
          | ok p =>
              rw [hr] at h
              simp only [Except.ok.injEq, Prod.mk.injEq] at h
              rw [← h.1] at he
              cases he with
              | head => exact parseEmail_body_le env.atob d
              | tail _ htail => exact ih p.1 p.2 e (by rw [hr]) htail

/-! ## Claims about the Output Timeline Scheduler -/

/-- C1, counterexample: with the cursor at 0, a first chunk of duration 1
arriving at device time 0 and a second chunk of duration 1 arriving at device
time 5, the second chunk starts at 5, not at the claimed
`max(cursor, deviceNow at the first chunk) + d1 = 1` — the claim is false for
chunks that arrive after the cursor has fallen behind the device clock. -/
theorem c1_counterexample :
    scheduleTrace ⟨0, []⟩ [(1, 0), (1, 5)] ≠ predictedStarts ⟨0, []⟩ [(1, 0), (1, 5)] := by
  simp only [scheduleTrace, schedulePlayback, predictedStarts, cumStarts, List.map_cons,
    List.map_nil]
  norm_num [max_def]

/-- C1 (amended): if every chunk after the first arrives while the timeline
cursor is still at or ahead of the device clock, then the i-th chunk starts at
`max(cursor, deviceNow at the first chunk)` plus the sum of the durations of
the previous chunks — back-to-back, no gaps, no overlaps. -/
theorem c1_back_to_back (s : SchedulerState) (d1 now1 : ℚ) (rest : List (ℚ × ℚ))
    (h : onTime (max s.cursor now1 + d1) rest = true) :
    scheduleTrace s ((d1, now1) :: rest) = predictedStarts s ((d1, now1) :: rest) := by
  obtain ⟨c, A⟩ := s
  simp only [scheduleTrace, schedulePlayback, predictedStarts, cumStarts]
  exact congrArg (max c now1 :: ·) (scheduleTrace_onTime rest _ _ h)

/-- C1, witness for `c1_back_to_back` at a concrete schedule. -/
theorem c1_back_to_back_witness :
    onTime (max (SchedulerState.mk 0 []).cursor 0 + 1) [(1, 1/2)] = true ∧
    scheduleTrace ⟨0, []⟩ [(1, 0), (1, 1/2)] = predictedStarts ⟨0, []⟩ [(1, 0), (1, 1/2)] :=
  ⟨by norm_num [onTime, max_def], c1_back_to_back ⟨0, []⟩ 1 0 [(1, 1/2)]
    (by norm_num [onTime, max_def])⟩

/-- C2, counterexample: `stopAllAudio` is an operation of the program that
resets the cursor from 1 to 0, so the cursor is not monotonically
non-decreasing across every operation. -/
theorem c2_counterexample :
    stopAllAudio { cursor := 1, active := [] } =
      Except.ok { cursor := 0, active := [] } ∧ ¬ ((1 : ℚ) ≤ (0 : ℚ)) :=
  ⟨stopAllAudio_ok _, by norm_num⟩

/-- C2 (amended): under scheduling (with a nonnegative chunk duration) and
natural playback end the cursor never decreases, and at the moment a chunk is
scheduled its start time — the cursor value used — is at least the device
clock; the interrupt path `stopAllAudio`, however, resets the cursor to 0. -/
theorem c2_cursor_invariant (s : SchedulerState) (d now : ℚ) (hh : PlaybackHandle)
    (hd : 0 ≤ d) :
    s.cursor ≤ (schedulePlayback s d now).1.cursor
    ∧ now ≤ (schedulePlayback s d now).2
    ∧ (handleEnded s hh).cursor = s.cursor
    ∧ stopAllAudio s = Except.ok { cursor := 0, active := [] } := by
  refine ⟨?_, ?_, rfl, stopAllAudio_ok s⟩
  · exact le_trans (le_max_left s.cursor now) (le_add_of_nonneg_right hd)
  · exact le_max_right s.cursor now

/-- C2, witness for `c2_cursor_invariant` at a concrete state. -/
theorem c2_cursor_invariant_witness :
    (0 : ℚ) ≤ 1 ∧
    ((SchedulerState.mk 2 []).cursor ≤ (schedulePlayback ⟨2, []⟩ 1 3).1.cursor
     ∧ (3 : ℚ) ≤ (schedulePlayback ⟨2, []⟩ 1 3).2
     ∧ (handleEnded ⟨2, []⟩ ⟨0, 0, false⟩).cursor = (SchedulerState.mk 2 []).cursor
     ∧ stopAllAudio ⟨2, []⟩ = Except.ok { cursor := 0, active := [] }) :=
  ⟨by norm_num, c2_cursor_invariant ⟨2, []⟩ 1 3 ⟨0, 0, false⟩ (by norm_num)⟩

/-- C4: `stopAllAudio` never throws — whatever the active set, including handles
whose underlying stop would throw because playback already ended — and on
return the active set is empty and the cursor is 0. -/
theorem c4_interrupt_safe (s : SchedulerState) :
    stopAllAudio s = Except.ok { cursor := 0, active := [] } :=
  stopAllAudio_ok s

/-! ## Claims about the Tool Dispatcher -/

/-- A mail collaborator that always succeeds with an empty inbox. -/
def emptyOracle : GmailOracle :=
  { getUnread := fun _ => Except.ok [], search := fun _ _ => Except.ok [] }

/-- A mail collaborator whose requests are rejected. -/
def failOracle : GmailOracle :=
  { getUnread := fun _ => Except.error "HTTP 401", search := fun _ _ => Except.error "HTTP 401" }

/-- A concrete dispatcher environment for witnesses: connected session, no Gmail
sign-in, empty stores. -/
def baseEnv : AssistantEnv :=
  { sessionPresent := true, status := SessionStatus.CONNECTED, gmailAuthenticated := false,
    memories := [], tasks := [], drafts := [], emails := [], mailLog := [],
    gmail := emptyOracle, uuid := "uuid-1", now := 0 }

/-- C3, counterexample: a batch handled while `sessionRef.current` is null — the
race window before `await sessionPromise` assigns it (`App.tsx` 422) — sends no
response at all, so the call id `a` is not answered by exactly one
`ToolResponse`. -/
theorem c3_counterexample :
    (handleToolCalls { baseEnv with sessionPresent := false }
      [{ id := "a", name := "save_memory", args := {} }]).2 = [] := rfl

/-- C3 (amended): provided the session handle is present when the batch is
handled, each `ToolCall` in the batch is answered with exactly one
`ToolResponse` carrying its id and name — the responses correspond one-to-one
and in order to the calls — and a call whose name is not one of the six
recognized operations receives the generic result `"ok"`, without affecting the
responses of the other calls. -/
theorem c3_batch_responses (env : AssistantEnv) (calls : List ToolCall)
    (h : env.sessionPresent = true) :
    List.Forall₂ (fun (fc : ToolCall) (r : ToolResponse) =>
        r.id = fc.id ∧ r.name = fc.name ∧
        (fc.name ∉ recognizedToolNames → r.result = ToolResult.str "ok"))
      calls (handleToolCalls env calls).2 :=
  dispatch_forall2 calls env h

/-- C3, witness for `c3_batch_responses`: a two-call batch with one recognized
and one unrecognized name. -/
theorem c3_batch_responses_witness :
    baseEnv.sessionPresent = true ∧
    List.Forall₂ (fun (fc : ToolCall) (r : ToolResponse) =>
        r.id = fc.id ∧ r.name = fc.name ∧
        (fc.name ∉ recognizedToolNames → r.result = ToolResult.str "ok"))
      [{ id := "a", name := "create_task", args := { title := some "Buy milk" } },
       { id := "b", name := "dance_party", args := {} }]
      (handleToolCalls baseEnv
        [{ id := "a", name := "create_task", args := { title := some "Buy milk" } },
         { id := "b", name := "dance_party", args := {} }]).2 :=
  ⟨rfl, c3_batch_responses baseEnv
    [{ id := "a", name := "create_task", args := { title := some "Buy milk" } },
     { id := "b", name := "dance_party", args := {} }] rfl⟩

/-- Whether the collaborator request the given mail call would issue fails. -/
def exceptErrored : Except String (List Email) → Bool
  | Except.error _ => true
  | Except.ok _ => false

/-- The collaborator outcome the dispatcher would observe for a mail call. -/
def mailFails (env : AssistantEnv) (fc : ToolCall) : Bool :=
  if fc.name = "read_emails" then
    exceptErrored (env.gmail.getUnread (jsOr10 fc.args.maxResults))
  else
    exceptErrored (env.gmail.search (jsStr fc.args.query) (jsOr10 fc.args.maxResults))

/-- C7: for the mail operations `read_emails` and `search_emails`, the
dispatcher never changes the session status; when Gmail is not authenticated it
resolves the call with the sign-in advisory string without invoking the mail
collaborator; when the collaborator call fails the failure is contained in that
branch and converted to an advisory string; and (when the session handle is
present) every call of any batch still receives its response. -/
theorem c7_mail_errors_contained (env : AssistantEnv) (fc : ToolCall) (calls : List ToolCall)
    (hname : fc.name = "read_emails" ∨ fc.name = "search_emails") :
    (runToolCall env fc).1.status = env.status
    ∧ (env.gmailAuthenticated = false →
        (runToolCall env fc).2 = ToolResult.str (if fc.name = "read_emails"
          then "Please sign in to Gmail first to read your emails."
          else "Please sign in to Gmail first to search your emails.")
        ∧ (runToolCall env fc).1.mailLog = env.mailLog)
    ∧ (env.gmailAuthenticated = true → mailFails env fc = true →
        (runToolCall env fc).2 =
          ToolResult.str (if fc.name = "read_emails" then readFailMsg else searchFailMsg))
    ∧ (env.sessionPresent = true → (handleToolCalls env calls).2.length = calls.length) := by
  refine ⟨(runToolCall_preserves env fc).2, ?_, ?_, ?_⟩
  · intro hauth
    rcases hname with h | h <;> constructor <;> simp [runToolCall, h, hauth]
  · intro hauth hfail
    rcases hname with h | h
    · simp only [mailFails, h, if_pos] at hfail
      cases hres : env.gmail.getUnread (jsOr10 fc.args.maxResults) with
      | ok v => rw [hres] at hfail; simp [exceptErrored] at hfail
      | error e => simp [runToolCall, h, hauth, hres]
    · simp only [mailFails, h] at hfail
      rw [if_neg (by decide)] at hfail
      cases hres : env.gmail.search (jsStr fc.args.query) (jsOr10 fc.args.maxResults) with
      | ok v => rw [hres] at hfail; simp [exceptErrored] at hfail
      | error e => simp [runToolCall, h, hauth, hres]
  · intro hses
    exact (dispatch_forall2 calls env hses).length_eq.symm

/-- C7, witness for `c7_mail_errors_contained`: an authenticated environment
whose mail collaborator rejects every request, and a one-call batch. -/
theorem c7_mail_errors_contained_witness :
    (("read_emails" : String) = "read_emails" ∨ ("read_emails" : String) = "search_emails") ∧
    (let env := { baseEnv with gmailAuthenticated := true, gmail := failOracle }
     let fc : ToolCall := { id := "a", name := "read_emails", args := {} }
     (runToolCall env fc).1.status = env.status
     ∧ (env.gmailAuthenticated = false →
         (runToolCall env fc).2 = ToolResult.str (if fc.name = "read_emails"
           then "Please sign in to Gmail first to read your emails."
           else "Please sign in to Gmail first to search your emails.")
         ∧ (runToolCall env fc).1.mailLog = env.mailLog)
     ∧ (env.gmailAuthenticated = true → mailFails env fc = true →
         (runToolCall env fc).2 =
           ToolResult.str (if fc.name = "read_emails" then readFailMsg else searchFailMsg))
     ∧ (env.sessionPresent = true → (handleToolCalls env [fc]).2.length = [fc].length)) :=
  ⟨Or.inl rfl,
   c7_mail_errors_contained { baseEnv with gmailAuthenticated := true, gmail := failOracle }
     { id := "a", name := "read_emails", args := {} }
     [{ id := "a", name := "read_emails", args := {} }] (Or.inl rfl)⟩

/-! ## Claims about the Session Lifecycle Controller -/

/-- C5, counterexample: when `sessionRef.current.close()` throws, `endConnection`
propagates the exception — it is not guarded — so the microphone release, the
scheduler interrupt and the status reset are all skipped (no final state is
produced); the steps are not each independently guarded. -/
theorem c5_counterexample :
    endConnection ⟨some ⟨false⟩, some ⟨true⟩, some [⟨false⟩], ⟨1, []⟩,
        SessionStatus.CONNECTED⟩ =
      Except.error "session close failed" := rfl

/-- C5 (amended): the end-connection path performs, in order: stop the capture
pipeline, close the transport handle, release the microphone device, interrupt
the scheduler, and then reports IDLE with every resource cleared; the capture
stop is guarded internally (a throwing `disconnect` is swallowed, so `nodes` is
arbitrary here) and the scheduler interrupt cannot throw, but the transport
close and the track stops are unguarded, so the full sequence is only
guaranteed when those two steps do not throw. -/
theorem c5_cleanup_sequence (nodes : AudioNodes) (s : SessionHandle) (ts : List Track)
    (sch : SchedulerState) (st : SessionStatus)
    (hclose : s.closeThrows = false)
    (htr : ts.all (fun t => !t.stopThrows) = true) :
    endConnection ⟨some nodes, some s, some ts, sch, st⟩ =
      Except.ok (⟨none, none, none, ⟨0, []⟩, SessionStatus.IDLE⟩,
        [CleanupStep.stopCapture, CleanupStep.closeTransport, CleanupStep.releaseMic,
         CleanupStep.interruptScheduler]) := by
  have htr2 : ∀ t ∈ ts, t.stopThrows = false := by
    intro t ht
    have := List.all_eq_true.mp htr t ht
    simpa using this
  simp [endConnection, cleanupAudioNodes, hclose, stopTracks_ok ts htr2, stopAllAudio_ok]

/-- C5, witness for `c5_cleanup_sequence`: all resources present, the audio-node
disconnect set to throw (it is swallowed), transport close and track stop well
behaved. -/
theorem c5_cleanup_sequence_witness :
    (SessionHandle.mk false).closeThrows = false
    ∧ ([Track.mk false].all (fun t => !t.stopThrows) = true)
    ∧ endConnection ⟨some ⟨true⟩, some ⟨false⟩, some [⟨false⟩], ⟨3, [⟨0, 1, true⟩]⟩,
          SessionStatus.CONNECTED⟩ =
        Except.ok (⟨none, none, none, ⟨0, []⟩, SessionStatus.IDLE⟩,
          [CleanupStep.stopCapture, CleanupStep.closeTransport, CleanupStep.releaseMic,
           CleanupStep.interruptScheduler]) :=
  ⟨rfl, rfl,
   c5_cleanup_sequence ⟨true⟩ ⟨false⟩ [⟨false⟩] ⟨3, [⟨0, 1, true⟩]⟩
     SessionStatus.CONNECTED rfl rfl⟩

/-- C6: when the start request finds the credential missing, equal to the
placeholder, or blank, the event trace is exactly CONNECTING followed by ERROR,
and the microphone-acquisition step never occurs. -/
theorem c6_invalid_key_short_circuits (apiKey : Option String) (micOk connectOk : Bool)
    (h : apiKeyInvalid apiKey = true) :
    startConnection apiKey micOk connectOk =
      [StartEvent.setStatus SessionStatus.CONNECTING, StartEvent.setStatus SessionStatus.ERROR]
    ∧ StartEvent.getUserMedia ∉ startConnection apiKey micOk connectOk := by
  constructor
  · simp [startConnection, h]
  · simp [startConnection, h]

/-- C6, witness for `c6_invalid_key_short_circuits` at the placeholder key. -/
theorem c6_invalid_key_short_circuits_witness :
    apiKeyInvalid (some "your_google_gemini_api_key_here") = true
    ∧ (startConnection (some "your_google_gemini_api_key_here") true true =
        [StartEvent.setStatus SessionStatus.CONNECTING, StartEvent.setStatus SessionStatus.ERROR]
       ∧ StartEvent.getUserMedia ∉
           startConnection (some "your_google_gemini_api_key_here") true true) :=
  ⟨by decide, c6_invalid_key_short_circuits (some "your_google_gemini_api_key_here") true true
    (by decide)⟩

/-! ## Claim about the Capture Pipeline -/

/-- C8: over any run of capture ticks, exactly the frames of ticks at which the
session handle is present are encoded and handed to the transport (frames of
session-less ticks appear nowhere — dropped, not queued), the run never
propagates an exception, and a failed per-tick send affects only that tick:
every later session-present frame is still attempted. -/
theorem c8_capture_gating (ts : List CaptureTick) :
    runCapture ts = Except.ok
      ((ts.filter (fun t => t.sessionPresent)).map (fun t => createBlob t.frame),
       (ts.filter (fun t => t.sessionPresent && !t.sendFails)).map
         (fun t => createBlob t.frame)) := by
  induction ts with
  | nil => rfl
  | cons t rest ih =>
      cases hs : t.sessionPresent <;> cases hf : t.sendFails <;>
        simp [runCapture, ih, List.filter_cons, hs, hf]

/-! ## Claims about the Gmail service -/

/-- C9: every `Email` returned by `getUnreadEmails` or `searchEmails` has a
`body` of at most 500 characters — the parsed message body is truncated by
`substring(0, 500)` in `parseEmail` before the record is returned. -/
theorem c9_body_truncated (env : GmailFetchEnv) (tok : Option String) (n : Nat) (q : String)
    (es : List Email) (ids : List String) (e : Email)
    (h : getUnreadEmails env tok n = Except.ok (es, ids) ∨
         searchEmails env tok q n = Except.ok (es, ids))
    (he : e ∈ es) : e.body.length ≤ 500 := by
  rcases h with h | h
  · unfold getUnreadEmails at h
    split at h
    · cases h
    · split at h
      · cases h
      · split at h
        · simp only [Except.ok.injEq, Prod.mk.injEq] at h
          rw [← h.1] at he; cases he
        · exact fetchDetails_body_le env _ es ids e h he
  · unfold searchEmails at h
    split at h
    · cases h
    · split at h
      · cases h
      · split at h
        · simp only [Except.ok.injEq, Prod.mk.injEq] at h
          rw [← h.1] at he; cases he
        · exact fetchDetails_body_le env _ es ids e h he

/-- A concrete Gmail message detail for witnesses. -/
def witnessMsg : GmailMessage :=
  { id := "m1", snippet := "snip",
    payload := { headers := [{ name := "From", value := "Bob <bob>" },
                             { name := "Subject", value := "Hello" },
                             { name := "Date", value := "Mon" }],
                 body := { data := some "SGVsbG8" }, parts := none },
    labelIds := some ["UNREAD"] }

/-- A concrete HTTP boundary whose unread listing returns one message. -/
def witnessFetchEnv : GmailFetchEnv :=
  { atob := fun s => s,
    listUnread := fun _ => Except.ok { messages := some [{ id := "m1" }] },
    listSearch := fun _ _ => Except.ok { messages := none },
    detail := fun _ => Except.ok witnessMsg }

/-- The email `witnessFetchEnv` produces. -/
def witnessEmail : Email := parseEmail (fun s => s) witnessMsg

/-- C9, witness for `c9_body_truncated` on a concrete fetched inbox. -/
theorem c9_body_truncated_witness :
    (getUnreadEmails witnessFetchEnv (some "tok") 5 = Except.ok ([witnessEmail], ["m1"]) ∨
     searchEmails witnessFetchEnv (some "tok") "q" 5 = Except.ok ([witnessEmail], ["m1"]))
    ∧ witnessEmail ∈ [witnessEmail]
    ∧ witnessEmail.body.length ≤ 500 :=
  ⟨Or.inl rfl, by simp,
   c9_body_truncated witnessFetchEnv (some "tok") 5 "q" [witnessEmail] ["m1"] witnessEmail
     (Or.inl rfl) (by simp)⟩

/-- C10: for any `maxResults` and any query, when the message-list response has
no `messages` field, both list operations return the empty list without
throwing and without fetching any message detail (the fetched-ids trace is
empty). -/
theorem c10_no_messages_empty (env : GmailFetchEnv) (tok : Option String) (n : Nat) (q : String)
    (htok : tokenMissing tok = false)
    (h1 : env.listUnread n = Except.ok { messages := none })
    (h2 : env.listSearch q n = Except.ok { messages := none }) :
    getUnreadEmails env tok n = Except.ok ([], []) ∧
    searchEmails env tok q n = Except.ok ([], []) := by
  constructor <;> simp [getUnreadEmails, searchEmails, htok, h1, h2]

/-- A concrete HTTP boundary whose list responses carry no `messages` field. -/
def emptyListEnv : GmailFetchEnv :=
  { atob := fun s => s,
    listUnread := fun _ => Except.ok { messages := none },
    listSearch := fun _ _ => Except.ok { messages := none },
    detail := fun _ => Except.error "detail endpoint unused" }

/-- C10, witness for `c10_no_messages_empty`. -/
theorem c10_no_messages_empty_witness :
    tokenMissing (some "tok") = false
    ∧ emptyListEnv.listUnread 7 = Except.ok { messages := none }
    ∧ emptyListEnv.listSearch "q" 7 = Except.ok { messages := none }
    ∧ (getUnreadEmails emptyListEnv (some "tok") 7 = Except.ok ([], []) ∧
       searchEmails emptyListEnv (some "tok") "q" 7 = Except.ok ([], [])) :=
  ⟨rfl, rfl, rfl, c10_no_messages_empty emptyListEnv (some "tok") 7 "q" rfl rfl rfl⟩

end Aura
